import Mathlib

/-!
Verification of the anti-fraud document analysis core.

Shallow embedding of src/src/document_analyzer.py: the CPF, CNPJ and date
validators, the field classifier and validation aggregator, the fraud
narrative wrapper, and the risk scorer. Strings are modelled by Lean
strings restricted to their character lists; Python datetimes are modelled
at day granularity (a parsed date carries midnight as its time component,
so comparison with the current moment collapses to comparison of calendar
dates); the external text-generation collaborator is modelled as an
optional function from the data embedded in the prompt to the narrative.
-/

/-- Numeric value of an ASCII digit character, as Python int applied to a
one-character digit string. -/
def digitVal (c : Char) : Nat := c.toNat - 48

/-- Check digit formula of the CPF validator: for check position i, the sum
over j below i of digit j times ((i+1)-j), times 10, mod 11, mod 10. -/
def cpfCheckDigit (ds : List Nat) (i : Nat) : Nat :=
  (((List.range i).map fun j => ds.getD j 0 * (i + 1 - j)).sum * 10 % 11) % 10

/-- CPF validator, from the source method that filters the input to its
digit characters, rejects when the length is not 11 or all characters are
equal to the first, and otherwise checks positions 9 and 10 against the
check digit formula. -/
def validate_cpf (s : String) : Bool :=
  let cpf := s.data.filter Char.isDigit
  if cpf.length != 11 || cpf == List.replicate 11 (cpf.headD '0') then false
  else ([9, 10] : List Nat).all fun i =>
    digitVal (cpf.getD i '0') == cpfCheckDigit (cpf.map digitVal) i

/-- CNPJ validator, from the source method: filter to digit characters and
accept exactly when 14 remain. -/
def validate_cnpj (s : String) : Bool :=
  let cnpj := s.data.filter Char.isDigit
  if cnpj.length != 14 then false
  else true

/-- Specification-side reading of the CPF rule: exactly 11 digits remain
after stripping, they are not 11 copies of one digit, and each check
position i in the set containing 9 and 10 holds the digit prescribed by
the weighted-sum formula. -/
def cpfSpecHolds (s : String) : Prop :=
  (s.data.filter Char.isDigit).length = 11 ∧
  (¬ ∃ c : Char, s.data.filter Char.isDigit = List.replicate 11 c) ∧
  ∀ i : Nat, i = 9 ∨ i = 10 →
    digitVal ((s.data.filter Char.isDigit).getD i '0') =
      ((List.range i).map fun j =>
        digitVal ((s.data.filter Char.isDigit).getD j '0') * (i + 1 - j)).sum * 10 % 11 % 10

/-- Result record built by the field validator, mirroring the dictionary
with keys valid_fields, invalid_fields and warnings. -/
structure ValidationResult where
  valid_fields : List String
  invalid_fields : List String
  warnings : List String
deriving DecidableEq, Repr

/-- Fraud analysis record, mirroring the dictionary with keys analysis and
flags. -/
structure FraudAnalysis where
  analysis : String
  flags : List String
deriving DecidableEq, Repr

/-- Risk scorer from the source: 25 points per invalid field, 10 per
warning, 15 per flag, clamped to 100. -/
def calculate_risk_score (validation : ValidationResult) (fraud_analysis : FraudAnalysis) : Int :=
  let invalid_count : Int := validation.invalid_fields.length
  let warning_count : Int := validation.warnings.length
  let flag_count : Int := fraud_analysis.flags.length
  min (invalid_count * 25 + warning_count * 10 + flag_count * 15) 100

/-- Risk level banding from the source: BAIXO up to 20, MEDIO up to 50,
ALTO up to 75, otherwise CRITICO. -/
def get_risk_level (score : Int) : String :=
  if score ≤ 20 then "BAIXO"
  else if score ≤ 50 then "MEDIO"
  else if score ≤ 75 then "ALTO"
  else "CRITICO"

/-- Claim C1: the risk score is exactly min of 100 and the weighted sum 25
per invalid field plus 10 per warning plus 15 per flag, hence an integer
between 0 and 100, and five invalid fields alone yield exactly 100 with
risk level CRITICO. -/
theorem C1 : ∀ (validation : ValidationResult) (fraud_analysis : FraudAnalysis),
    calculate_risk_score validation fraud_analysis =
      min 100 (25 * (validation.invalid_fields.length : Int) +
        10 * (validation.warnings.length : Int) +
        15 * (fraud_analysis.flags.length : Int)) ∧
    0 ≤ calculate_risk_score validation fraud_analysis ∧
    calculate_risk_score validation fraud_analysis ≤ 100 ∧
    (validation.invalid_fields.length = 5 → validation.warnings = [] →
      fraud_analysis.flags = [] →
      calculate_risk_score validation fraud_analysis = 100 ∧
      get_risk_level (calculate_risk_score validation fraud_analysis) = "CRITICO") := by
  intro v fa
  have h : calculate_risk_score v fa =
      min ((v.invalid_fields.length : Int) * 25 + (v.warnings.length : Int) * 10 +
        (fa.flags.length : Int) * 15) 100 := rfl
  refine ⟨by rw [h]; omega, by rw [h]; omega, by rw [h]; omega, ?_⟩
  intro h5 hw hf
  have h100 : calculate_risk_score v fa = 100 := by
    rw [h, h5, hw, hf]
    decide
  exact ⟨h100, by rw [h100]; decide⟩

/-- Witness for claim C1 at a concrete validation result holding five
invalid fields and nothing else. -/
theorem C1_witness :
    calculate_risk_score ⟨[], ["a", "b", "c", "d", "e"], []⟩ ⟨"", []⟩ = 100 ∧
    get_risk_level (calculate_risk_score ⟨[], ["a", "b", "c", "d", "e"], []⟩ ⟨"", []⟩) =
      "CRITICO" :=
  (C1 ⟨[], ["a", "b", "c", "d", "e"], []⟩ ⟨"", []⟩).2.2.2 rfl rfl rfl

/-- Claim C2: the risk level function maps scores at most 20 to BAIXO,
21 to 50 to MEDIO, 51 to 75 to ALTO and everything above 75 to CRITICO,
and in particular two invalid fields, one warning and one flag score 75
and land in ALTO. -/
theorem C2 : ∀ score : Int,
    (score ≤ 20 → get_risk_level score = "BAIXO") ∧
    (21 ≤ score → score ≤ 50 → get_risk_level score = "MEDIO") ∧
    (51 ≤ score → score ≤ 75 → get_risk_level score = "ALTO") ∧
    (75 < score → get_risk_level score = "CRITICO") ∧
    (∀ (validation : ValidationResult) (fraud_analysis : FraudAnalysis),
      validation.invalid_fields.length = 2 → validation.warnings.length = 1 →
      fraud_analysis.flags.length = 1 →
      calculate_risk_score validation fraud_analysis = 75 ∧
      get_risk_level (calculate_risk_score validation fraud_analysis) = "ALTO") := by
  intro score
  refine ⟨?_, ?_, ?_, ?_, ?_⟩
  · intro h
    unfold get_risk_level
    rw [if_pos h]
  · intro h1 h2
    unfold get_risk_level
    rw [if_neg (by omega), if_pos h2]
  · intro h1 h2
    unfold get_risk_level
    rw [if_neg (by omega), if_neg (by omega), if_pos h2]
  · intro h
    unfold get_risk_level
    rw [if_neg (by omega), if_neg (by omega), if_neg (by omega)]
  · intro v fa h1 h2 h3
    have hs : calculate_risk_score v fa = 75 := by
      have h : calculate_risk_score v fa =
          min ((v.invalid_fields.length : Int) * 25 + (v.warnings.length : Int) * 10 +
            (fa.flags.length : Int) * 15) 100 := rfl
      rw [h, h1, h2, h3]
      decide
    exact ⟨hs, by rw [hs]; decide⟩

/-- Witness for claim C2 at concrete scores on each band boundary and at a
concrete validation result with two invalid fields, one warning and one
flag. -/
theorem C2_witness :
    get_risk_level 10 = "BAIXO" ∧ get_risk_level 75 = "ALTO" ∧
    calculate_risk_score ⟨[], ["x", "y"], ["w"]⟩ ⟨"", ["f"]⟩ = 75 ∧
    get_risk_level (calculate_risk_score ⟨[], ["x", "y"], ["w"]⟩ ⟨"", ["f"]⟩) = "ALTO" :=
  ⟨(C2 10).1 (by decide), (C2 75).2.2.1 (by decide) (by decide),
    ((C2 0).2.2.2.2 ⟨[], ["x", "y"], ["w"]⟩ ⟨"", ["f"]⟩ rfl rfl rfl).1,
    ((C2 0).2.2.2.2 ⟨[], ["x", "y"], ["w"]⟩ ⟨"", ["f"]⟩ rfl rfl rfl).2⟩

/-- Getting a digit value through a mapped list agrees with mapping after
lookup, since the default digit value of the character 0 is 0. -/
theorem getD_map_digitVal (l : List Char) (n : Nat) :
    (l.map digitVal).getD n 0 = digitVal (l.getD n '0') := by
  induction l generalizing n with
  | nil => simp [List.getD_nil]; decide
  | cons c t ih =>
    cases n with
    | zero => rfl
    | succ m => simpa using ih m

/-- The check digit formula over mapped digit values, rewritten to act on
the character list directly. -/
theorem cpfCheckDigit_map (l : List Char) (i : Nat) :
    cpfCheckDigit (l.map digitVal) i =
      ((List.range i).map fun j => digitVal (l.getD j '0') * (i + 1 - j)).sum * 10 % 11 % 10 := by
  simp only [cpfCheckDigit, getD_map_digitVal]

/-- Claim C3: the CPF validator accepts exactly the strings whose digit
projection has length 11, is not one digit repeated, and satisfies the two
check digit equations at positions 9 and 10; in particular every string of
one digit repeated 11 times is rejected. -/
theorem C3 : ∀ s : String,
    (validate_cpf s = true ↔ cpfSpecHolds s) ∧
    (∀ n : Fin 10, validate_cpf (String.mk (List.replicate 11 (Char.ofNat (48 + n.val)))) = false) := by
  intro s
  refine ⟨?_, by decide⟩
  simp only [validate_cpf, cpfSpecHolds]
  set cpf := s.data.filter Char.isDigit with hcpf
  by_cases hl : cpf.length = 11
  · by_cases hr : cpf = List.replicate 11 (cpf.headD '0')
    · have hcond : (cpf.length != 11 || cpf == List.replicate 11 (cpf.headD '0')) = true := by
        simp only [Bool.or_eq_true, beq_iff_eq]
        exact Or.inr hr
      rw [hcond]
      refine iff_of_false (by simp) ?_
      rintro ⟨-, hne, -⟩
      exact hne ⟨cpf.headD '0', hr⟩
    · have hcond : (cpf.length != 11 || cpf == List.replicate 11 (cpf.headD '0')) = false := by
        have h1 : (cpf.length != 11) = false := by
          simp only [bne_eq_false_iff_eq]
          exact hl
        have h2 : (cpf == List.replicate 11 (cpf.headD '0')) = false := by
          simp only [beq_eq_false_iff_ne, ne_eq]
          exact hr
        rw [h1, h2]
        rfl
      rw [hcond]
      have hne : ¬ ∃ c : Char, cpf = List.replicate 11 c := by
        rintro ⟨c, hc⟩
        apply hr
        have hh : cpf.headD '0' = c := by rw [hc]; rfl
        rw [hh]
        exact hc
      simp only [Bool.false_eq_true, if_false, List.all_cons, List.all_nil, Bool.and_true,
        Bool.and_eq_true, beq_iff_eq, cpfCheckDigit_map]
      constructor
      · rintro ⟨h9, h10⟩
        refine ⟨hl, hne, ?_⟩
        rintro i (rfl | rfl)
        exacts [h9, h10]
      · rintro ⟨-, -, h⟩
        exact ⟨h 9 (Or.inl rfl), h 10 (Or.inr rfl)⟩
  · have hcond : (cpf.length != 11 || cpf == List.replicate 11 (cpf.headD '0')) = true := by
      simp [hl]
    rw [hcond]
    refine iff_of_false (by simp) ?_
    rintro ⟨h11, -, -⟩
    exact hl h11

/-- Witness for claim C3: a known valid CPF satisfies the specification
formula, obtained by applying the equivalence at that string. -/
theorem C3_witness : cpfSpecHolds "11144477735" :=
  (C3 "11144477735").1.mp (by decide)

/-- Claim C4: the CPF validator is invariant under removing non-digit
characters, and a formatted and an unformatted writing of the same CPF
validate identically. -/
theorem C4 : (∀ s : String,
      validate_cpf (String.mk (s.data.filter Char.isDigit)) = validate_cpf s) ∧
    validate_cpf "111.444.777-35" = validate_cpf "11144477735" := by
  constructor
  · intro s
    have hd : (String.mk (s.data.filter Char.isDigit)).data.filter Char.isDigit =
        s.data.filter Char.isDigit := by
      show (s.data.filter Char.isDigit).filter Char.isDigit = s.data.filter Char.isDigit
      simp [List.filter_filter]
    simp only [validate_cpf, hd]
  · decide

/-- Claim C5: the CNPJ validator accepts exactly the strings with 14 digit
characters after stripping non-digits; no check digits are verified. -/
theorem C5 : ∀ s : String,
    validate_cnpj s = true ↔ (s.data.filter Char.isDigit).length = 14 := by
  intro s
  by_cases h : (s.data.filter Char.isDigit).length = 14 <;>
    simp [validate_cnpj, h]

/-- Witness for claim C5: a formatted 14 digit string with an arbitrary
checksum is accepted, obtained by applying the equivalence at it. -/
theorem C5_witness : validate_cnpj "11.111.111/1111-11" = true :=
  (C5 "11.111.111/1111-11").mpr (by decide)

/-- Calendar date at day granularity. A Python datetime parsed from a date
layout carries midnight as its time, so its comparison against the current
moment only depends on the calendar dates of both sides. -/
structure PDate where
  year : Nat
  month : Nat
  day : Nat
deriving DecidableEq, Repr

/-- Linear key realizing the chronological order on calendar dates with
month at most 12 and day at most 31. -/
def PDate.key (d : PDate) : Nat := d.year * 10000 + d.month * 100 + d.day

/-- Directive of a date layout: day, month or four digit year. -/
inductive Directive where
  | day
  | month
  | year
deriving DecidableEq, Repr

/-- One date layout: three directives joined by a fixed separator, as in
the format strings of the source. -/
structure DateFormat where
  first : Directive
  second : Directive
  third : Directive
  sep : Char
deriving DecidableEq, Repr

/-- The four layouts of the source, in source order: day/month/year,
year-month-day, day-month-year, month/day/year. -/
def pyFormats : List DateFormat :=
  [⟨Directive.day, Directive.month, Directive.year, '/'⟩,
   ⟨Directive.year, Directive.month, Directive.day, '-'⟩,
   ⟨Directive.day, Directive.month, Directive.year, '-'⟩,
   ⟨Directive.month, Directive.day, Directive.year, '/'⟩]

/-- Value of a two digit field. -/
def twoDigitVal (a b : Char) : Nat := digitVal a * 10 + digitVal b

/-- Field matcher for one directive, following the strptime patterns: a
day is one digit 1 to 9, a space then one digit 1 to 9, or two digits
giving 1 to 31; a month is one digit 1 to 9 or two digits giving 1 to 12;
a year is exactly four digits. -/
def matchDirective : Directive → List Char → Option Nat
  | Directive.day, [c] =>
      if c.isDigit && decide (1 ≤ digitVal c) then some (digitVal c) else none
  | Directive.day, [a, b] =>
      if a == ' ' then
        (if b.isDigit && decide (1 ≤ digitVal b) then some (digitVal b) else none)
      else if a.isDigit && b.isDigit &&
          decide (1 ≤ twoDigitVal a b ∧ twoDigitVal a b ≤ 31) then
        some (twoDigitVal a b)
      else none
  | Directive.month, [c] =>
      if c.isDigit && decide (1 ≤ digitVal c) then some (digitVal c) else none
  | Directive.month, [a, b] =>
      if a.isDigit && b.isDigit && decide (1 ≤ twoDigitVal a b ∧ twoDigitVal a b ≤ 12) then
        some (twoDigitVal a b)
      else none
  | Directive.year, [a, b, c, d] =>
      if a.isDigit && b.isDigit && c.isDigit && d.isDigit then
        some (digitVal a * 1000 + digitVal b * 100 + digitVal c * 10 + digitVal d)
      else none
  | _, _ => none

/-- The Gregorian leap year rule used by the datetime constructor. -/
def isLeapYear (y : Nat) : Bool := y % 4 == 0 && (y % 100 != 0 || y % 400 == 0)

/-- Number of days of a month, as validated by the datetime constructor. -/
def daysInMonth (y m : Nat) : Nat :=
  if m == 2 then (if isLeapYear y then 29 else 28)
  else if m == 4 || m == 6 || m == 9 || m == 11 then 30
  else 31

/-- Calendar validation of the datetime constructor: year between 1 and
9999, month between 1 and 12, day between 1 and the length of the month;
a violation raises ValueError, modelled as none. -/
def mkValidDate (y m d : Nat) : Option PDate :=
  if 1 ≤ y ∧ y ≤ 9999 ∧ 1 ≤ m ∧ m ≤ 12 ∧ 1 ≤ d ∧ d ≤ daysInMonth y m then
    some ⟨y, m, d⟩
  else none

/-- Split of a character list at every occurrence of a separator. -/
def splitOnChar (sep : Char) : List Char → List (List Char)
  | [] => [[]]
  | c :: rest =>
      match splitOnChar sep rest with
      | [] => [[]]
      | h :: t => if c == sep then [] :: h :: t else (c :: h) :: t

/-- Value bound to a directive among the three matched fields. -/
def pickField (dir : Directive) (fields : List (Directive × Nat)) : Nat :=
  ((fields.find? fun p => p.1 == dir).map Prod.snd).getD 0

/-- Parse of a stripped string under one layout, modelling one strptime
call of the source: the string must be three fields joined by the
separator, each field must match its directive, and the resulting triple
must be a valid calendar date. -/
def parseWithFormat (fmt : DateFormat) (s : List Char) : Option PDate :=
  match splitOnChar fmt.sep s with
  | [p1, p2, p3] =>
      match matchDirective fmt.first p1, matchDirective fmt.second p2,
          matchDirective fmt.third p3 with
      | some v1, some v2, some v3 =>
          let fields := [(fmt.first, v1), (fmt.second, v2), (fmt.third, v3)]
          mkValidDate (pickField Directive.year fields) (pickField Directive.month fields)
            (pickField Directive.day fields)
      | _, _, _ => none
  | _ => none

/-- ASCII whitespace stripped by the Python strip method. -/
def pyWhitespace (c : Char) : Bool :=
  c == ' ' || c == '\t' || c == '\n' || c == '\r' || c.toNat == 11 || c.toNat == 12

/-- Strip of leading and trailing whitespace. -/
def pyStrip (l : List Char) : List Char :=
  ((l.dropWhile pyWhitespace).reverse.dropWhile pyWhitespace).reverse

/-- Loop of the date validator over the layout list: the first layout that
parses decides the answer by comparing the parsed date with the current
moment; when none parses the answer is false. -/
def tryFormats (now : PDate) : List DateFormat → List Char → Bool
  | [], _ => false
  | fmt :: rest, s =>
      match parseWithFormat fmt s with
      | some d => decide (d.key ≤ now.key)
      | none => tryFormats now rest s

/-- Date validator from the source, parameterized by the current moment at
validation time. -/
def validate_date (now : PDate) (date_str : String) : Bool :=
  tryFormats now pyFormats (pyStrip date_str.data)

/-- First layout of a list that parses the given string, and its parse. -/
def findFirstParse : List DateFormat → List Char → Option PDate
  | [], _ => none
  | fmt :: rest, s =>
      match parseWithFormat fmt s with
      | some d => some d
      | none => findFirstParse rest s

/-- The validator loop is the comparison of the first successful parse
with the current moment, and false when no layout parses. -/
theorem tryFormats_eq_findFirstParse (now : PDate) (fs : List DateFormat) (s : List Char) :
    tryFormats now fs s =
      match findFirstParse fs s with
      | some d => decide (d.key ≤ now.key)
      | none => false := by
  induction fs with
  | nil => rfl
  | cons fmt rest ih =>
      simp only [tryFormats, findFirstParse]
      cases parseWithFormat fmt s with
      | some d => rfl
      | none => exact ih

/-- Claim C6: the date validator tries the stripped input against the four
layouts in the fixed source order, the first successful parse wins and is
compared with the current moment, failure of all layouts gives false, a
parsed date strictly after the current moment gives false, and the strings
01/01/2020 and 2020-01-01 are accepted whenever the current moment is not
before the start of 2020. -/
theorem C6 : ∀ (date_str : String) (now : PDate),
    (findFirstParse pyFormats (pyStrip date_str.data) = none →
      validate_date now date_str = false) ∧
    (∀ d : PDate, findFirstParse pyFormats (pyStrip date_str.data) = some d →
      (validate_date now date_str = true ↔ d.key ≤ now.key)) ∧
    (∀ d : PDate, findFirstParse pyFormats (pyStrip date_str.data) = some d →
      now.key < d.key → validate_date now date_str = false) ∧
    ((PDate.mk 2020 1 1).key ≤ now.key →
      validate_date now "01/01/2020" = true ∧ validate_date now "2020-01-01" = true) := by
  intro s now
  refine ⟨?_, ?_, ?_, ?_⟩
  · intro h0
    unfold validate_date
    rw [tryFormats_eq_findFirstParse, h0]
  · intro d hd
    unfold validate_date
    rw [tryFormats_eq_findFirstParse, hd]
    simp
  · intro d hd hlt
    unfold validate_date
    rw [tryFormats_eq_findFirstParse, hd]
    simp
    omega
  · intro hle
    constructor
    · have hp : findFirstParse pyFormats (pyStrip ("01/01/2020" : String).data) =
          some ⟨2020, 1, 1⟩ := by decide
      unfold validate_date
      rw [tryFormats_eq_findFirstParse, hp]
      simpa using hle
    · have hp : findFirstParse pyFormats (pyStrip ("2020-01-01" : String).data) =
          some ⟨2020, 1, 1⟩ := by decide
      unfold validate_date
      rw [tryFormats_eq_findFirstParse, hp]
      simpa using hle

/-- Witness for claim C6: with the current moment fixed to 2026-10-12, a
past date is accepted in the slash and dash layouts, a date one year in
the future is rejected, and an unparseable string is rejected. -/
theorem C6_witness :
    validate_date ⟨2026, 10, 12⟩ "01/01/2020" = true ∧
    validate_date ⟨2026, 10, 12⟩ "2020-01-01" = true ∧
    validate_date ⟨2026, 10, 12⟩ "12/10/2027" = false ∧
    validate_date ⟨2026, 10, 12⟩ "13/13/2020" = false := by
  refine ⟨?_, ?_, ?_, ?_⟩
  · exact ((C6 "01/01/2020" ⟨2026, 10, 12⟩).2.2.2 (by decide)).1
  · exact ((C6 "2020-01-01" ⟨2026, 10, 12⟩).2.2.2 (by decide)).2
  · exact (C6 "12/10/2027" ⟨2026, 10, 12⟩).2.2.1 ⟨2027, 10, 12⟩ (by decide) (by decide)
  · exact (C6 "13/13/2020" ⟨2026, 10, 12⟩).1 (by decide)

/-- Substring containment of a pattern in a character list, modelling the
Python membership test on strings. -/
def containsSub (pat : List Char) : List Char → Bool
  | [] => pat.isEmpty
  | c :: rest => pat.isPrefixOf (c :: rest) || containsSub pat rest

/-- Table cell of the extraction payload. -/
structure TableCell where
  row : Nat
  col : Nat
  content : String
deriving DecidableEq, Repr

/-- Extraction payload: the key and value pairs when the key is present in
the dictionary, the tables, and the error message of the degraded payload
returned when the extraction collaborator is unconfigured. -/
structure ExtractedData where
  key_value_pairs : Option (List (String × String))
  tables : List (List TableCell)
  error : Option String
deriving DecidableEq, Repr

/-- Degraded payload returned by the extraction step when the Document
Intelligence client is not configured: an error entry and no
key_value_pairs key at all. -/
def extract_document_data_unconfigured : ExtractedData :=
  { key_value_pairs := none, tables := [],
    error := some "Document Intelligence client nao configurado" }

/-- Body of the field validation loop from the source: lowercase the key,
then match cpf, else cnpj, else data or date, appending one label to the
bucket chosen by the matched validator; other keys change nothing. -/
def updateResult (now : PDate) (results : ValidationResult) (k v : String) : ValidationResult :=
  let key_lower := k.data.map Char.toLower
  if containsSub "cpf".data key_lower then
    (if validate_cpf v then
      { results with valid_fields := results.valid_fields ++ ["CPF: " ++ v] }
    else
      { results with invalid_fields := results.invalid_fields ++ ["CPF invalido: " ++ v] })
  else if containsSub "cnpj".data key_lower then
    (if validate_cnpj v then
      { results with valid_fields := results.valid_fields ++ ["CNPJ: " ++ v] }
    else
      { results with invalid_fields := results.invalid_fields ++ ["CNPJ invalido: " ++ v] })
  else if containsSub "data".data key_lower || containsSub "date".data key_lower then
    (if validate_date now v then
      { results with valid_fields := results.valid_fields ++ ["Data: " ++ v] }
    else
      { results with warnings := results.warnings ++ ["Data suspeita: " ++ v] })
  else results

/-- Field classifier and validation aggregator from the source: iterate
over the extracted key and value pairs in order, starting from three empty
buckets; a missing key_value_pairs entry reads as the empty mapping. -/
def validate_fields (now : PDate) (extracted_data : ExtractedData) : ValidationResult :=
  (extracted_data.key_value_pairs.getD []).foldl
    (fun results p => updateResult now results p.1 p.2) ⟨[], [], []⟩

/-- Fraud narrative requester from the source: with no configured client
it returns the fixed sentinel with empty flags; with a configured client
the narrative is whatever the collaborator answers to the prompt built
from the extracted pairs and the validation result, and the flags are the
invalid fields of the validation result. -/
def analyze_fraud_patterns (openai_client : Option (ExtractedData → ValidationResult → String))
    (extracted_data : ExtractedData) (validation : ValidationResult) : FraudAnalysis :=
  match openai_client with
  | none => { analysis := "OpenAI client nao configurado", flags := [] }
  | some complete =>
      { analysis := complete extracted_data validation,
        flags := validation.invalid_fields }

/-- Bucket of the validation result a classified pair lands in. -/
inductive Bucket where
  | valid
  | invalid
  | warning
deriving DecidableEq, Repr

/-- Specification-side classification of one key and value pair, following
the claim wording: case-insensitive substring match on the key with cpf
before cnpj before data or date, a passing identifier or date labelled
into the valid bucket, a failing identifier into the invalid bucket, a
failing date into the warning bucket, anything else into no bucket. -/
def classifyPair (now : PDate) (k v : String) : Option (Bucket × String) :=
  let key_lower := k.data.map Char.toLower
  if containsSub "cpf".data key_lower then
    some (if validate_cpf v then (Bucket.valid, "CPF: " ++ v)
      else (Bucket.invalid, "CPF invalido: " ++ v))
  else if containsSub "cnpj".data key_lower then
    some (if validate_cnpj v then (Bucket.valid, "CNPJ: " ++ v)
      else (Bucket.invalid, "CNPJ invalido: " ++ v))
  else if containsSub "data".data key_lower || containsSub "date".data key_lower then
    some (if validate_date now v then (Bucket.valid, "Data: " ++ v)
      else (Bucket.warning, "Data suspeita: " ++ v))
  else none

/-- Labels sent to one bucket by the classification, in pair order. -/
def bucketLabels (now : PDate) (b : Bucket) (pairs : List (String × String)) : List String :=
  pairs.filterMap fun p =>
    match classifyPair now p.1 p.2 with
    | some q => if q.1 = b then some q.2 else none
    | none => none

/-- Appending one classified label to its bucket. -/
def applyBucket (acc : ValidationResult) : Option (Bucket × String) → ValidationResult
  | none => acc
  | some (Bucket.valid, lbl) => { acc with valid_fields := acc.valid_fields ++ [lbl] }
  | some (Bucket.invalid, lbl) => { acc with invalid_fields := acc.invalid_fields ++ [lbl] }
  | some (Bucket.warning, lbl) => { acc with warnings := acc.warnings ++ [lbl] }

/-- The loop body of the source equals applying the classified label of
the pair to its bucket. -/
theorem updateResult_eq_applyBucket (now : PDate) (acc : ValidationResult) (k v : String) :
    updateResult now acc k v = applyBucket acc (classifyPair now k v) := by
  dsimp only [updateResult, classifyPair]
  split_ifs <;> rfl

/-- The validation loop started from any accumulator appends to each
bucket exactly the labels the classification sends there, in pair order. -/
theorem validate_fields_loop (now : PDate) (pairs : List (String × String))
    (acc : ValidationResult) :
    pairs.foldl (fun a p => updateResult now a p.1 p.2) acc =
      ⟨acc.valid_fields ++ bucketLabels now Bucket.valid pairs,
        acc.invalid_fields ++ bucketLabels now Bucket.invalid pairs,
        acc.warnings ++ bucketLabels now Bucket.warning pairs⟩ := by
  induction pairs generalizing acc with
  | nil => simp [bucketLabels]
  | cons p rest ih =>
    rw [List.foldl_cons, ih, updateResult_eq_applyBucket]
    cases h : classifyPair now p.1 p.2 with
    | none =>
      simp [bucketLabels, List.filterMap_cons, h, applyBucket]
    | some q =>
      obtain ⟨b, lbl⟩ := q
      cases b <;>
        simp [bucketLabels, List.filterMap_cons, h, applyBucket, List.append_assoc]

/-- Claim C7: the field validator classifies each pair by case-insensitive
substring match with cpf before cnpj before data or date, sends passing
identifiers and dates to valid_fields, failing identifiers to
invalid_fields, failing dates to warnings, ignores unmatched keys, and
keeps the iteration order of the pairs in every bucket. -/
theorem C7 : ∀ (now : PDate) (extracted_data : ExtractedData),
    validate_fields now extracted_data =
      { valid_fields := bucketLabels now Bucket.valid (extracted_data.key_value_pairs.getD []),
        invalid_fields := bucketLabels now Bucket.invalid (extracted_data.key_value_pairs.getD []),
        warnings := bucketLabels now Bucket.warning (extracted_data.key_value_pairs.getD []) } := by
  intro now ed
  unfold validate_fields
  rw [validate_fields_loop]
  simp

/-- Claim C8: without a configured collaborator the fraud analysis is the
fixed sentinel with empty flags, for every input; with a configured
collaborator the flags are a verbatim copy of the invalid fields of the
validation result and the narrative is exactly the collaborator answer,
whatever function the collaborator computes. -/
theorem C8 : (∀ (extracted_data : ExtractedData) (validation : ValidationResult),
      analyze_fraud_patterns none extracted_data validation =
        { analysis := "OpenAI client nao configurado", flags := [] }) ∧
    (∀ (complete : ExtractedData → ValidationResult → String)
      (extracted_data : ExtractedData) (validation : ValidationResult),
      (analyze_fraud_patterns (some complete) extracted_data validation).flags =
        validation.invalid_fields ∧
      (analyze_fraud_patterns (some complete) extracted_data validation).analysis =
        complete extracted_data validation) :=
  ⟨fun _ _ => rfl, fun _ _ _ => ⟨rfl, rfl⟩⟩

/-- Claim C9: with an empty key and value mapping, including the degraded
extraction payload that has no key_value_pairs entry at all, the field
validator returns three empty buckets, and whatever the fraud collaborator
configuration, the resulting risk score is 0 with level BAIXO. -/
theorem C9 : ∀ (now : PDate) (openai_client : Option (ExtractedData → ValidationResult → String))
    (extracted_data : ExtractedData),
    extracted_data.key_value_pairs = none ∨ extracted_data.key_value_pairs = some [] →
    validate_fields now extracted_data = ⟨[], [], []⟩ ∧
    calculate_risk_score (validate_fields now extracted_data)
      (analyze_fraud_patterns openai_client extracted_data
        (validate_fields now extracted_data)) = 0 ∧
    get_risk_level (calculate_risk_score (validate_fields now extracted_data)
      (analyze_fraud_patterns openai_client extracted_data
        (validate_fields now extracted_data))) = "BAIXO" := by
  intro now client ed h
  have hv : validate_fields now ed = ⟨[], [], []⟩ := by
    rcases h with h | h <;> simp [validate_fields, h]
  rw [hv]
  rcases client with _ | f <;>
    simp [analyze_fraud_patterns, calculate_risk_score, get_risk_level]

/-- Witness for claim C9 at the degraded extraction payload returned when
the extraction collaborator is unconfigured, with no fraud collaborator. -/
theorem C9_witness :
    validate_fields ⟨2026, 1, 1⟩ extract_document_data_unconfigured = ⟨[], [], []⟩ ∧
    calculate_risk_score (validate_fields ⟨2026, 1, 1⟩ extract_document_data_unconfigured)
      (analyze_fraud_patterns none extract_document_data_unconfigured
        (validate_fields ⟨2026, 1, 1⟩ extract_document_data_unconfigured)) = 0 ∧
    get_risk_level (calculate_risk_score (validate_fields ⟨2026, 1, 1⟩
        extract_document_data_unconfigured)
      (analyze_fraud_patterns none extract_document_data_unconfigured
        (validate_fields ⟨2026, 1, 1⟩ extract_document_data_unconfigured))) = "BAIXO" :=
  C9 ⟨2026, 1, 1⟩ none extract_document_data_unconfigured (Or.inl rfl)

/-- The three bucket label lists together have exactly one entry per pair
the classification does not ignore. -/
theorem bucketLabels_partition (now : PDate) (pairs : List (String × String)) :
    (bucketLabels now Bucket.valid pairs).length +
      (bucketLabels now Bucket.invalid pairs).length +
      (bucketLabels now Bucket.warning pairs).length =
      (pairs.filterMap fun p => classifyPair now p.1 p.2).length := by
  induction pairs with
  | nil => rfl
  | cons p rest ih =>
    simp only [bucketLabels, List.filterMap_cons] at ih ⊢
    cases h : classifyPair now p.1 p.2 with
    | none => simpa [h] using ih
    | some q =>
      obtain ⟨b, lbl⟩ := q
      cases b <;> simp [h] <;> omega

/-- Claim C10: each pair contributes at most one label, to exactly one of
the three buckets, so the bucket sizes sum to the number of classified
pairs and never exceed the number of extracted pairs. -/
theorem C10 : ∀ (now : PDate) (extracted_data : ExtractedData),
    (validate_fields now extracted_data).valid_fields.length +
      (validate_fields now extracted_data).invalid_fields.length +
      (validate_fields now extracted_data).warnings.length =
      ((extracted_data.key_value_pairs.getD []).filterMap fun p =>
        classifyPair now p.1 p.2).length ∧
    (validate_fields now extracted_data).valid_fields.length +
      (validate_fields now extracted_data).invalid_fields.length +
      (validate_fields now extracted_data).warnings.length ≤
      (extracted_data.key_value_pairs.getD []).length := by
  intro now ed
  have hchar : validate_fields now ed =
      ⟨bucketLabels now Bucket.valid (ed.key_value_pairs.getD []),
        bucketLabels now Bucket.invalid (ed.key_value_pairs.getD []),
        bucketLabels now Bucket.warning (ed.key_value_pairs.getD [])⟩ := by
    unfold validate_fields
    rw [validate_fields_loop]
    simp
  rw [hchar]
  refine ⟨bucketLabels_partition now _, ?_⟩
  rw [bucketLabels_partition now _]
  exact List.length_filterMap_le _ _
